import Mathlib

/-!
Shallow embedding of `src/s3-client.cts` from the file-store repository.

The client wraps an object-storage gateway (the AWS SDK boundary).  Remote
calls are modelled by a `Gateway` record of pure functions returning
`Except JSError α`; promise rejection values are modelled by the `JSError`
tree (`.reject m e` stands for the literal `Promise.reject({message: m,
error: e})` objects built by the client, `.jsError m` for `new Error(m)`,
and `.gateway m` for an opaque error produced by the SDK itself).

Each client operation returns both its outcome and the ordered list of
commands that actually reached the gateway, so that sequencing contracts
("the second call runs only if the first succeeds", "no ACL call is
attempted after a failed transfer") can be stated about the trace.
-/

namespace FileStore

/-- JavaScript error values as they flow through the client:
an opaque gateway/SDK error, a thrown `new Error(msg)`, or one of the
wrapper objects built by the client via Promise.reject of a message/error pair. -/
inductive JSError where
  | gateway : String → JSError
  | jsError : String → JSError
  | reject : String → JSError → JSError
deriving DecidableEq, Repr

/-- The `.message` property read by `(e as Error).message` in the
outer catch of `delete`.  On a wrapper object it is the `message` field. -/
def JSError.message : JSError → String
  | .gateway m => m
  | .jsError m => m
  | .reject m _ => m

/-- Whether the error value `t` occurs somewhere in the `error`-chain of
`e` (including `e` itself): the "original error object" is reachable from
the rejection payload. -/
def JSError.containsErr : JSError → JSError → Bool
  | e@(.reject _ inner), t => e = t || inner.containsErr t
  | e, t => e = t

/-- `CreateBucketCommandOutput`, kept opaque up to one field. -/
structure CreateBucketOutput where
  location : Option String
deriving DecidableEq, Repr

/-- `DeleteBucketCommandOutput`, kept opaque. -/
structure DeleteBucketOutput where
  tag : Nat
deriving DecidableEq, Repr

/-- The transfer-completion result of `uploadClient.done()`
(`CompleteMultipartUploadCommandOutput`), kept opaque. -/
structure UploadOutput where
  tag : Nat
deriving DecidableEq, Repr

/-- `DeleteObjectCommandOutput`: only `$metadata.httpStatusCode` is
inspected by the client; it may be absent (`undefined`). -/
structure DeleteObjectOutput where
  httpStatusCode : Option Nat
deriving DecidableEq, Repr

/-- String interpolation of `$metadata.httpStatusCode` in the thrown
error message: a number prints as itself, `undefined` prints as the word. -/
def statusStr : Option Nat → String
  | none => "undefined"
  | some n => toString n

/-- The body of an object to upload: inline text, a byte buffer, or a
readable stream (`ObjectBody` in the source). -/
inductive ObjectBody where
  | str : String → ObjectBody
  | bytes : List Nat → ObjectBody
  | stream : List (List Nat) → ObjectBody
deriving DecidableEq, Repr

/-- A get-object response body: a byte stream, materialised as the list
of chunks it emits.  `transformToByteArray` drains it to a single array. -/
abbrev Body := List (List Nat)

/-- `res.Body.transformToByteArray()`: concatenation of all chunks. -/
def transformToByteArray (b : Body) : List Nat := b.flatten

/-- `CreateBucketConfig` from the source. -/
structure CreateBucketConfig where
  bucketName : String
deriving DecidableEq, Repr

/-- `ObjectConfig` from the source. -/
structure ObjectConfig where
  bucket : String
  key : String
deriving DecidableEq, Repr

/-- `UploadConfig` from the source; `serverSideEncryption` is optional
(`"AES256" | "aws:kms" | "aws:kms:dsse"`). -/
structure UploadConfig where
  bucket : String
  key : String
  body : ObjectBody
  objectAccess : String
  serverSideEncryption : Option String
deriving DecidableEq, Repr

/-- The commands a client operation can issue against the gateway,
carrying the parameters the source puts into each SDK command. -/
inductive Call where
  | createBucket : String → String → String → Call
  | deletePublicAccessBlock : String → Call
  | deleteBucket : String → Call
  | transfer : String → String → ObjectBody → String → Call
  | putObjectAcl : String → String → String → Call
  | getObject : String → String → Call
  | deleteObject : String → String → Call
deriving DecidableEq, Repr

/-- The object-storage gateway: one pure function per remote operation,
each returning success or an (opaque) error. -/
structure Gateway where
  createBucket : String → String → String → Except JSError CreateBucketOutput
  deletePublicAccessBlock : String → Except JSError Unit
  deleteBucket : String → Except JSError DeleteBucketOutput
  transfer : String → String → ObjectBody → String → Except JSError UploadOutput
  putObjectAcl : String → String → String → Except JSError Unit
  getObject : String → String → Except JSError Body
  deleteObject : String → String → Except JSError DeleteObjectOutput

namespace Client

/-- `createBucket`: create the bucket in the configured region with
ownership `"BucketOwnerPreferred"`; on success issue a
`DeletePublicAccessBlockCommand`.  The create failure is wrapped with
`"Could not create new bucket."`; a block-removal failure is wrapped with
a message naming the bucket.  Returns the outcome and the issued calls. -/
def createBucket (g : Gateway) (region : String) (config : CreateBucketConfig) :
    Except JSError CreateBucketOutput × List Call :=
  match g.createBucket config.bucketName region "BucketOwnerPreferred" with
  | .error e =>
      (.error (.reject "Could not create new bucket." e),
       [Call.createBucket config.bucketName region "BucketOwnerPreferred"])
  | .ok res =>
      match g.deletePublicAccessBlock config.bucketName with
      | .ok _ =>
          (.ok res,
           [Call.createBucket config.bucketName region "BucketOwnerPreferred",
            Call.deletePublicAccessBlock config.bucketName])
      | .error e =>
          (.error (.reject
             ("Could not delete public access block from bucket :\x27"
               ++ config.bucketName ++ "\x27.") e),
           [Call.createBucket config.bucketName region "BucketOwnerPreferred",
            Call.deletePublicAccessBlock config.bucketName])

/-- `deleteBucket`: a single pass-through `DeleteBucketCommand`; the
result from the gateway (success or error) is returned unchanged. -/
def deleteBucket (g : Gateway) (bucket : String) :
    Except JSError DeleteBucketOutput × List Call :=
  (g.deleteBucket bucket, [Call.deleteBucket bucket])

/-- `upload`: run the multipart transfer with
`ServerSideEncryption: config.serverSideEncryption || "AES256"`; a
transfer failure propagates raw (the `await uploadClient.done()` is not
guarded).  On transfer success a `PutObjectAclCommand` is issued; its
failure is wrapped with a message naming key and bucket, its success
yields the transfer-completion result. -/
def upload (g : Gateway) (config : UploadConfig) :
    Except JSError UploadOutput × List Call :=
  let sse := config.serverSideEncryption.getD "AES256"
  match g.transfer config.bucket config.key config.body sse with
  | .error e =>
      (.error e, [Call.transfer config.bucket config.key config.body sse])
  | .ok res =>
      match g.putObjectAcl config.bucket config.key config.objectAccess with
      | .ok _ =>
          (.ok res,
           [Call.transfer config.bucket config.key config.body sse,
            Call.putObjectAcl config.bucket config.key config.objectAccess])
      | .error e =>
          (.error (.reject
             ("Could not set access level for object: \x27" ++ config.key
               ++ "\x27 in bucket: \x27" ++ config.bucket ++ "\x27") e),
           [Call.transfer config.bucket config.key config.body sse,
            Call.putObjectAcl config.bucket config.key config.objectAccess])

/-- `download`: a single `GetObjectCommand`; on success the body stream is
fully drained by `transformToByteArray`, on failure the error is wrapped
with a message naming key and bucket. -/
def download (g : Gateway) (config : ObjectConfig) :
    Except JSError (List Nat) × List Call :=
  match g.getObject config.bucket config.key with
  | .ok body => (.ok (transformToByteArray body),
      [Call.getObject config.bucket config.key])
  | .error e =>
      (.error (.reject
         ("Could not get object: \x27" ++ config.key ++ "\x27 in bucket: \x27"
           ++ config.bucket ++ "\x27") e),
       [Call.getObject config.bucket config.key])

/-- The inner rejection message of `delete`
(the message naming the object key and the bucket). -/
def deleteCtxMsg (config : ObjectConfig) : String :=
  "Could not delete object: \x27" ++ config.key ++ "\x27 in bucket: \x27"
    ++ config.bucket ++ "\x27"

/-- `delete`: initiates the download (not yet awaited), then sends the
`DeleteObjectCommand`.  Inside `.then`, a status code other than 204
throws a new Error reporting the unexpected status code;
otherwise the pending download promise is adopted.  The `.catch` wraps
whatever rejected — the send error, the thrown status error, or the
failed download — with the delete-context message.  `return await` of the
rejected chain then throws into the outer `try/catch`, which wraps once
more with `"Error deleting object: " + (e as Error).message`. -/
def delete (g : Gateway) (config : ObjectConfig) :
    Except JSError (List Nat) × List Call :=
  let dl := download g config
  let calls := dl.2 ++ [Call.deleteObject config.bucket config.key]
  let inner : Except JSError (List Nat) :=
    match g.deleteObject config.bucket config.key with
    | .ok res =>
        if res.httpStatusCode ≠ some 204 then
          .error (.reject (deleteCtxMsg config)
            (.jsError ("Unexpected http statuscode \x27"
              ++ statusStr res.httpStatusCode ++ "\x27. Expected 204.")))
        else
          match dl.1 with
          | .ok bs => .ok bs
          | .error e => .error (.reject (deleteCtxMsg config) e)
    | .error e => .error (.reject (deleteCtxMsg config) e)
  match inner with
  | .ok bs => (.ok bs, calls)
  | .error e =>
      (.error (.reject ("Error deleting object: " ++ e.message) e), calls)

end Client

end FileStore

namespace FileStore

/-! Concrete gateways and configurations used to exercise the model. -/

/-- A sample successful create-bucket output. -/
def okCreateOut : CreateBucketOutput := ⟨some "eu-central-1"⟩

/-- A sample successful delete-bucket output. -/
def okDeleteBucketOut : DeleteBucketOutput := ⟨7⟩

/-- A sample transfer-completion output. -/
def okUploadOut : UploadOutput := ⟨11⟩

/-- A gateway on which every remote call succeeds; get-object streams the
chunks `[[1, 2], [3]]` and delete-object reports status 204. -/
def gwOk : Gateway where
  createBucket := fun _ _ _ => .ok okCreateOut
  deletePublicAccessBlock := fun _ => .ok ()
  deleteBucket := fun _ => .ok okDeleteBucketOut
  transfer := fun _ _ _ _ => .ok okUploadOut
  putObjectAcl := fun _ _ _ => .ok ()
  getObject := fun _ _ => .ok [[1, 2], [3]]
  deleteObject := fun _ _ => .ok ⟨some 204⟩

/-- A gateway on which every remote call fails with a distinct error. -/
def gwAllFail : Gateway where
  createBucket := fun _ _ _ => .error (.gateway "cfail")
  deletePublicAccessBlock := fun _ => .error (.gateway "pfail")
  deleteBucket := fun _ => .error (.gateway "bfail")
  transfer := fun _ _ _ _ => .error (.gateway "tfail")
  putObjectAcl := fun _ _ _ => .error (.gateway "afail")
  getObject := fun _ _ => .error (.gateway "gfail")
  deleteObject := fun _ _ => .error (.gateway "dfail")

/-- Like `gwOk`, but the public-access-block removal fails. -/
def gwPabFail : Gateway := { gwOk with
  deletePublicAccessBlock := fun _ => .error (.gateway "pfail") }

/-- Like `gwOk`, but the ACL call fails. -/
def gwAclFail : Gateway := { gwOk with
  putObjectAcl := fun _ _ _ => .error (.gateway "afail") }

/-- Like `gwOk`, but get-object fails. -/
def gwGetFail : Gateway := { gwOk with
  getObject := fun _ _ => .error (.gateway "gfail") }

/-- Like `gwOk`, but delete-object reports status 200 instead of 204. -/
def gwStatus200 : Gateway := { gwOk with
  deleteObject := fun _ _ => .ok ⟨some 200⟩ }

/-- A sample object reference. -/
def cfgO : ObjectConfig := ⟨"b", "k"⟩

/-- A sample create-bucket configuration. -/
def cfgB : CreateBucketConfig := ⟨"mybucket"⟩

/-- A sample upload configuration with no encryption option specified. -/
def cfgU : UploadConfig := ⟨"b", "k", .bytes [9, 9], "public-read", none⟩

/-! Theorems about the client operations. -/

/-- Claim C1: for every object config for which the internally initiated
download succeeds and the delete-object call succeeds with status code
204, `delete` resolves with exactly the byte array that `download` would
have returned for the same bucket and key (delete acts as a pop). -/
theorem delete_pop (g : Gateway) (config : ObjectConfig) (bs : List Nat)
    (res : DeleteObjectOutput)
    (hdl : (Client.download g config).1 = Except.ok bs)
    (hdel : g.deleteObject config.bucket config.key = Except.ok res)
    (h204 : res.httpStatusCode = some 204) :
    (Client.delete g config).1 = Except.ok bs := by
  simp [Client.delete, hdel, h204, hdl]

/-- Claim C1 witness: a concrete run on the all-success gateway. -/
theorem delete_pop_witness :
    (Client.download gwOk cfgO).1 = Except.ok [1, 2, 3] ∧
    gwOk.deleteObject "b" "k" = Except.ok ⟨some 204⟩ ∧
    (Client.delete gwOk cfgO).1 = Except.ok [1, 2, 3] :=
  ⟨rfl, rfl, delete_pop gwOk cfgO [1, 2, 3] ⟨some 204⟩ rfl rfl rfl⟩

/-- Claim C2: if the delete-object call completes without error but its
status code is not 204, `delete` rejects with the unexpected-result
failure — the rejection payload carries (nested under the context
messages) the thrown error reporting the unexpected status code — and
never resolves with bytes. -/
theorem delete_non204 (g : Gateway) (config : ObjectConfig)
    (res : DeleteObjectOutput)
    (hdel : g.deleteObject config.bucket config.key = Except.ok res)
    (hne : res.httpStatusCode ≠ some 204) :
    (Client.delete g config).1 =
      Except.error (.reject
        ("Error deleting object: " ++ Client.deleteCtxMsg config)
        (.reject (Client.deleteCtxMsg config)
          (.jsError ("Unexpected http statuscode \x27"
            ++ statusStr res.httpStatusCode ++ "\x27. Expected 204.")))) ∧
    ∀ bs, (Client.delete g config).1 ≠ Except.ok bs := by
  have h : (Client.delete g config).1 =
      Except.error (.reject
        ("Error deleting object: " ++ Client.deleteCtxMsg config)
        (.reject (Client.deleteCtxMsg config)
          (.jsError ("Unexpected http statuscode \x27"
            ++ statusStr res.httpStatusCode ++ "\x27. Expected 204.")))) := by
    simp [Client.delete, hdel, hne, JSError.message]
  exact ⟨h, by intro bs; rw [h]; exact fun hab => Except.noConfusion hab⟩

/-- Claim C2 witness: a concrete run where delete-object reports 200. -/
theorem delete_non204_witness :
    gwStatus200.deleteObject "b" "k" = Except.ok ⟨some 200⟩ ∧
    (⟨some 200⟩ : DeleteObjectOutput).httpStatusCode ≠ some 204 ∧
    (Client.delete gwStatus200 cfgO).1 =
      Except.error (.reject
        ("Error deleting object: " ++ Client.deleteCtxMsg cfgO)
        (.reject (Client.deleteCtxMsg cfgO)
          (.jsError ("Unexpected http statuscode \x27"
            ++ statusStr (some 200) ++ "\x27. Expected 204.")))) :=
  ⟨rfl, by decide,
   (delete_non204 gwStatus200 cfgO ⟨some 200⟩ rfl (by decide)).1⟩

/-- Claim C7: `deleteBucket` is a single pass-through call: its outcome,
success or error, is exactly what the gateway returns, with no wrapping,
and the only call issued is the delete-bucket call itself. -/
theorem deleteBucket_passthrough (g : Gateway) (bucket : String) :
    (Client.deleteBucket g bucket).1 = g.deleteBucket bucket ∧
    (Client.deleteBucket g bucket).2 = [Call.deleteBucket bucket] :=
  ⟨rfl, rfl⟩

/-- Claim C8: `download` fully materializes the body — when get-object
yields a stream of chunks, `download` resolves with their concatenation —
and when get-object fails it rejects with an error naming the object key
and the bucket, wrapping the original error. -/
theorem download_spec (g : Gateway) (config : ObjectConfig) :
    (∀ chunks, g.getObject config.bucket config.key = Except.ok chunks →
      (Client.download g config).1 = Except.ok chunks.flatten) ∧
    (∀ e, g.getObject config.bucket config.key = Except.error e →
      (Client.download g config).1 = Except.error (.reject
        ("Could not get object: \x27" ++ config.key
          ++ "\x27 in bucket: \x27" ++ config.bucket ++ "\x27") e)) := by
  constructor
  · intro chunks h
    simp [Client.download, transformToByteArray, h]
  · intro e h
    simp [Client.download, h]

/-- Claim C8 witness: chunks [[1, 2], [3]] materialize to [1, 2, 3], and
a failed get-object yields the wrapped error. -/
theorem download_spec_witness :
    gwOk.getObject "b" "k" = Except.ok [[1, 2], [3]] ∧
    (Client.download gwOk cfgO).1 = Except.ok [1, 2, 3] ∧
    gwGetFail.getObject "b" "k" = Except.error (.gateway "gfail") ∧
    (Client.download gwGetFail cfgO).1 = Except.error (.reject
      ("Could not get object: \x27" ++ cfgO.key ++ "\x27 in bucket: \x27"
        ++ cfgO.bucket ++ "\x27") (.gateway "gfail")) :=
  ⟨rfl,
   by simpa using (download_spec gwOk cfgO).1 [[1, 2], [3]] rfl,
   rfl,
   (download_spec gwGetFail cfgO).2 (.gateway "gfail") rfl⟩

/-- Claim C3: the public-access-block removal is issued only if the
create call succeeds (a create failure aborts with only the create call
in the trace); and if the create call succeeds but the block removal
fails, `createBucket` rejects with an error whose message names the
bucket, while the trace shows no compensating delete-bucket call. -/
theorem createBucket_spec (g : Gateway) (region : String)
    (config : CreateBucketConfig) :
    (∀ e, g.createBucket config.bucketName region "BucketOwnerPreferred" =
        Except.error e →
      (Client.createBucket g region config).1 =
        Except.error (.reject "Could not create new bucket." e) ∧
      (Client.createBucket g region config).2 =
        [Call.createBucket config.bucketName region "BucketOwnerPreferred"]) ∧
    (∀ res e, g.createBucket config.bucketName region "BucketOwnerPreferred" =
        Except.ok res →
      g.deletePublicAccessBlock config.bucketName = Except.error e →
      (Client.createBucket g region config).1 =
        Except.error (.reject
          ("Could not delete public access block from bucket :\x27"
            ++ config.bucketName ++ "\x27.") e) ∧
      (Client.createBucket g region config).2 =
        [Call.createBucket config.bucketName region "BucketOwnerPreferred",
         Call.deletePublicAccessBlock config.bucketName]) := by
  constructor
  · intro e h
    simp [Client.createBucket, h]
  · intro res e h1 h2
    simp [Client.createBucket, h1, h2]

/-- Claim C3 witness: a failing create call leaves a one-call trace, and
a failing block removal rejects with the bucket-naming message while the
trace holds exactly the two calls (no delete-bucket call). -/
theorem createBucket_spec_witness :
    gwAllFail.createBucket "mybucket" "eu-central-1" "BucketOwnerPreferred" =
      Except.error (.gateway "cfail") ∧
    (Client.createBucket gwAllFail "eu-central-1" cfgB).2 =
      [Call.createBucket "mybucket" "eu-central-1" "BucketOwnerPreferred"] ∧
    gwPabFail.deletePublicAccessBlock "mybucket" =
      Except.error (.gateway "pfail") ∧
    (Client.createBucket gwPabFail "eu-central-1" cfgB).1 =
      Except.error (.reject
        ("Could not delete public access block from bucket :\x27"
          ++ cfgB.bucketName ++ "\x27.") (.gateway "pfail")) ∧
    (Client.createBucket gwPabFail "eu-central-1" cfgB).2 =
      [Call.createBucket "mybucket" "eu-central-1" "BucketOwnerPreferred",
       Call.deletePublicAccessBlock "mybucket"] :=
  ⟨rfl,
   ((createBucket_spec gwAllFail "eu-central-1" cfgB).1
     (.gateway "cfail") rfl).2,
   rfl,
   ((createBucket_spec gwPabFail "eu-central-1" cfgB).2
     okCreateOut (.gateway "pfail") rfl rfl).1,
   ((createBucket_spec gwPabFail "eu-central-1" cfgB).2
     okCreateOut (.gateway "pfail") rfl rfl).2⟩

/-- Claim C4: if the transfer step fails, `upload` fails immediately with
the raw transfer error — no wrapping — and no set-object-acl call ever
reaches the gateway (the trace holds only the transfer call). -/
theorem upload_transfer_failure (g : Gateway) (config : UploadConfig)
    (e : JSError)
    (h : g.transfer config.bucket config.key config.body
        (config.serverSideEncryption.getD "AES256") = Except.error e) :
    (Client.upload g config).1 = Except.error e ∧
    (Client.upload g config).2 =
      [Call.transfer config.bucket config.key config.body
        (config.serverSideEncryption.getD "AES256")] ∧
    ∀ b k a, Call.putObjectAcl b k a ∉ (Client.upload g config).2 := by
  refine ⟨?_, ?_, ?_⟩ <;> simp [Client.upload, h]

/-- Claim C4 witness: a concrete failing transfer. -/
theorem upload_transfer_failure_witness :
    gwAllFail.transfer "b" "k" (ObjectBody.bytes [9, 9]) "AES256" =
      Except.error (.gateway "tfail") ∧
    (Client.upload gwAllFail cfgU).1 = Except.error (.gateway "tfail") ∧
    ∀ b k a, Call.putObjectAcl b k a ∉ (Client.upload gwAllFail cfgU).2 :=
  ⟨rfl,
   (upload_transfer_failure gwAllFail cfgU (.gateway "tfail") rfl).1,
   (upload_transfer_failure gwAllFail cfgU (.gateway "tfail") rfl).2.2⟩

/-- Claim C5: after a successful transfer, a failing set-object-acl call
makes `upload` reject with an error naming the object key and the bucket,
and a successful one makes `upload` return the transfer-completion
result, not the ACL result. -/
theorem upload_after_transfer (g : Gateway) (config : UploadConfig)
    (res : UploadOutput)
    (h : g.transfer config.bucket config.key config.body
        (config.serverSideEncryption.getD "AES256") = Except.ok res) :
    (∀ e, g.putObjectAcl config.bucket config.key config.objectAccess =
        Except.error e →
      (Client.upload g config).1 = Except.error (.reject
        ("Could not set access level for object: \x27" ++ config.key
          ++ "\x27 in bucket: \x27" ++ config.bucket ++ "\x27") e)) ∧
    (g.putObjectAcl config.bucket config.key config.objectAccess =
        Except.ok () →
      (Client.upload g config).1 = Except.ok res) := by
  constructor
  · intro e h2
    simp [Client.upload, h, h2]
  · intro h2
    simp [Client.upload, h, h2]

/-- Claim C5 witness: concrete runs with a failing and a succeeding ACL
call after a successful transfer. -/
theorem upload_after_transfer_witness :
    gwAclFail.transfer "b" "k" (ObjectBody.bytes [9, 9]) "AES256" =
      Except.ok okUploadOut ∧
    (Client.upload gwAclFail cfgU).1 = Except.error (.reject
      ("Could not set access level for object: \x27" ++ cfgU.key
        ++ "\x27 in bucket: \x27" ++ cfgU.bucket ++ "\x27")
      (.gateway "afail")) ∧
    (Client.upload gwOk cfgU).1 = Except.ok okUploadOut :=
  ⟨rfl,
   (upload_after_transfer gwAclFail cfgU okUploadOut rfl).1
     (.gateway "afail") rfl,
   (upload_after_transfer gwOk cfgU okUploadOut rfl).2 rfl⟩

/-- Claim C9: when the caller does not specify a server-side-encryption
option, the transfer call handed to the gateway carries the fixed
default algorithm tag "AES256" (the trace starts with that call). -/
theorem upload_default_sse (g : Gateway) (config : UploadConfig)
    (h : config.serverSideEncryption = none) :
    (Client.upload g config).2.head? =
      some (Call.transfer config.bucket config.key config.body "AES256") := by
  cases h2 : g.transfer config.bucket config.key config.body "AES256" with
  | error e => simp [Client.upload, h, h2]
  | ok res =>
      cases h3 : g.putObjectAcl config.bucket config.key config.objectAccess <;>
        simp [Client.upload, h, h2, h3]

/-- Claim C9 witness: a concrete upload config with no encryption
option. -/
theorem upload_default_sse_witness :
    cfgU.serverSideEncryption = none ∧
    (Client.upload gwOk cfgU).2.head? =
      some (Call.transfer "b" "k" (ObjectBody.bytes [9, 9]) "AES256") :=
  ⟨rfl, upload_default_sse gwOk cfgU rfl⟩

/-- Claim C10: if the delete-object call succeeds with status 204 but the
internally initiated download failed, `delete` never resolves with bytes:
it rejects, and the rejection wraps the download failure inside the
delete-context message naming the object key and the bucket. -/
theorem delete_download_failure (g : Gateway) (config : ObjectConfig)
    (edl : JSError) (res : DeleteObjectOutput)
    (hget : g.getObject config.bucket config.key = Except.error edl)
    (hdel : g.deleteObject config.bucket config.key = Except.ok res)
    (h204 : res.httpStatusCode = some 204) :
    (Client.delete g config).1 =
      Except.error (.reject
        ("Error deleting object: " ++ Client.deleteCtxMsg config)
        (.reject (Client.deleteCtxMsg config)
          (.reject ("Could not get object: \x27" ++ config.key
            ++ "\x27 in bucket: \x27" ++ config.bucket ++ "\x27") edl))) ∧
    ∀ bs, (Client.delete g config).1 ≠ Except.ok bs := by
  have h : (Client.delete g config).1 =
      Except.error (.reject
        ("Error deleting object: " ++ Client.deleteCtxMsg config)
        (.reject (Client.deleteCtxMsg config)
          (.reject ("Could not get object: \x27" ++ config.key
            ++ "\x27 in bucket: \x27" ++ config.bucket ++ "\x27") edl))) := by
    simp [Client.delete, Client.download, hget, hdel, h204, JSError.message]
  exact ⟨h, by intro bs; rw [h]; exact fun hab => Except.noConfusion hab⟩

/-- Claim C10 witness: concrete run where get-object fails and
delete-object reports 204. -/
theorem delete_download_failure_witness :
    gwGetFail.getObject "b" "k" = Except.error (.gateway "gfail") ∧
    gwGetFail.deleteObject "b" "k" = Except.ok ⟨some 204⟩ ∧
    (Client.delete gwGetFail cfgO).1 =
      Except.error (.reject
        ("Error deleting object: " ++ Client.deleteCtxMsg cfgO)
        (.reject (Client.deleteCtxMsg cfgO)
          (.reject ("Could not get object: \x27" ++ cfgO.key
            ++ "\x27 in bucket: \x27" ++ cfgO.bucket ++ "\x27")
            (.gateway "gfail")))) :=
  ⟨rfl, rfl,
   (delete_download_failure gwGetFail cfgO (.gateway "gfail")
     ⟨some 204⟩ rfl rfl rfl).1⟩

/-- Claim C6 counterexample: the claim says every one of the five
operations wraps a gateway rejection in a payload carrying a contextual
message together with the original error.  On a gateway whose
delete-bucket call rejects, `deleteBucket` rejects with exactly the raw
gateway error: the payload is not one of the wrapper objects (it carries
no message field alongside an error field), so the claim fails. -/
theorem deleteBucket_no_wrap :
    (Client.deleteBucket gwAllFail "mybucket").1 =
      Except.error (.gateway "bfail") ∧
    ∀ m inner, JSError.gateway "bfail" ≠ JSError.reject m inner :=
  ⟨rfl, fun _ _ hab => JSError.noConfusion hab⟩

/-- Claim C6 amended: the per-operation propagation policy the code
actually implements.  `createBucket` wraps a create failure with a fixed
message (not naming the bucket) and the original error; `deleteBucket`
passes the gateway outcome through unwrapped; `upload` propagates a
transfer failure raw but wraps an ACL failure with a message naming key
and bucket; `download` wraps a get-object failure with a message naming
key and bucket; `delete` wraps a delete-object failure twice, the inner
wrapper naming key and bucket and carrying the original error.  In every
case the operation rejects and the original error object remains
reachable in the payload. -/
theorem error_propagation (g : Gateway) (region : String) :
    (∀ cfg e, g.createBucket cfg.bucketName region "BucketOwnerPreferred" =
        Except.error e →
      (Client.createBucket g region cfg).1 =
        Except.error (.reject "Could not create new bucket." e)) ∧
    (∀ b, (Client.deleteBucket g b).1 = g.deleteBucket b) ∧
    (∀ cfg e, g.transfer cfg.bucket cfg.key cfg.body
        (cfg.serverSideEncryption.getD "AES256") = Except.error e →
      (Client.upload g cfg).1 = Except.error e) ∧
    (∀ cfg res e, g.transfer cfg.bucket cfg.key cfg.body
        (cfg.serverSideEncryption.getD "AES256") = Except.ok res →
      g.putObjectAcl cfg.bucket cfg.key cfg.objectAccess = Except.error e →
      (Client.upload g cfg).1 = Except.error (.reject
        ("Could not set access level for object: \x27" ++ cfg.key
          ++ "\x27 in bucket: \x27" ++ cfg.bucket ++ "\x27") e)) ∧
    (∀ cfg e, g.getObject cfg.bucket cfg.key = Except.error e →
      (Client.download g cfg).1 = Except.error (.reject
        ("Could not get object: \x27" ++ cfg.key ++ "\x27 in bucket: \x27"
          ++ cfg.bucket ++ "\x27") e)) ∧
    (∀ cfg e, g.deleteObject cfg.bucket cfg.key = Except.error e →
      (Client.delete g cfg).1 = Except.error (.reject
        ("Error deleting object: " ++ Client.deleteCtxMsg cfg)
        (.reject (Client.deleteCtxMsg cfg) e))) := by
  refine ⟨?_, fun _ => rfl, ?_, ?_, ?_, ?_⟩
  · intro cfg e h
    simp [Client.createBucket, h]
  · intro cfg e h
    simp [Client.upload, h]
  · intro cfg res e h1 h2
    simp [Client.upload, h1, h2]
  · intro cfg e h
    simp [Client.download, h]
  · intro cfg e h
    simp [Client.delete, h, JSError.message]

/-- Claim C6 amended witness: each failing path exercised on concrete
gateways. -/
theorem error_propagation_witness :
    (Client.createBucket gwAllFail "eu-central-1" cfgB).1 =
      Except.error (.reject "Could not create new bucket."
        (.gateway "cfail")) ∧
    (Client.deleteBucket gwAllFail "mybucket").1 =
      gwAllFail.deleteBucket "mybucket" ∧
    (Client.upload gwAllFail cfgU).1 =
      Except.error (.gateway "tfail") ∧
    (Client.upload gwAclFail cfgU).1 = Except.error (.reject
      ("Could not set access level for object: \x27" ++ cfgU.key
        ++ "\x27 in bucket: \x27" ++ cfgU.bucket ++ "\x27")
      (.gateway "afail")) ∧
    (Client.download gwGetFail cfgO).1 = Except.error (.reject
      ("Could not get object: \x27" ++ cfgO.key ++ "\x27 in bucket: \x27"
        ++ cfgO.bucket ++ "\x27") (.gateway "gfail")) ∧
    (Client.delete gwAllFail cfgO).1 = Except.error (.reject
      ("Error deleting object: " ++ Client.deleteCtxMsg cfgO)
      (.reject (Client.deleteCtxMsg cfgO) (.gateway "dfail"))) :=
  ⟨(error_propagation gwAllFail "eu-central-1").1 cfgB (.gateway "cfail") rfl,
   (error_propagation gwAllFail "eu-central-1").2.1 "mybucket",
   (error_propagation gwAllFail "eu-central-1").2.2.1 cfgU
     (.gateway "tfail") rfl,
   (error_propagation gwAclFail "eu-central-1").2.2.2.1 cfgU okUploadOut
     (.gateway "afail") rfl rfl,
   (error_propagation gwGetFail "eu-central-1").2.2.2.2.1 cfgO
     (.gateway "gfail") rfl,
   (error_propagation gwAllFail "eu-central-1").2.2.2.2.2 cfgO
     (.gateway "dfail") rfl⟩

end FileStore
